import Mathlib

/-!
A shallow embedding of the `syntax_strife` battle-simulation core
(`strifelib.py`): the tokenizer and label index, the stack-machine
interpreter (`RoboBot.execute_next`), the per-tick bot driver
(`RoboBot.tick`), projectiles (`Bullet`) and the arena world step
(`Arena.tick`, `Arena.update_bullets`), together with theorems checking
the natural-language specification against this embedding.

Modelling conventions:
* Python integers are `ℤ`; Python floats are exact reals `ℝ` (geometry)
  or `ℚ` where only rational values can arise (health, damage);
  floating-point rounding is not modelled.
* Python exceptions are `Except Fault`; any exception kills the bot
  (`health := 0`) at the `tick` boundary, as in the source's
  `try/except`.  Mutations a faulting opcode made to the dying bot's
  private interpreter state (stack, pc) before raising are discarded;
  they are unobservable, since a faulted bot never executes again and
  other components read only position/health/radius.
* Python object identity (the `bot is self` / `bot is bullet.owner`
  checks) is modelled by a unique `bid : ℕ` tag per bot.
* The operand stack is a `List Value` with the head as the top of the
  Python list (its end).
-/

namespace Strife

/-- A value on a bot's operand stack: the source pushes Python ints,
strings, and (from `SCAN` / `HEALTH`) floats. -/
inductive Value where
  | int (i : ℤ)
  | str (s : String)
  | real (r : ℝ)

/-- The kinds of Python exception the interpreter can raise; all are
bot-fatal.  `nameError` is raised by the unbound identifier in the
source's `CALL` branch. -/
inductive Fault where
  | stackOverflow
  | indexError
  | keyError
  | typeError
  | valueError
  | zeroDivision
  | nameError
  deriving DecidableEq

/-! ### Character-list string helpers (for the tokenizer) -/

/-- Python `str.split("\n")`: split into lines, keeping empty lines. -/
def splitNl : List Char → List (List Char)
  | [] => [[]]
  | c :: rest =>
    match splitNl rest with
    | [] => [[]]
    | l :: ls => if c = '\n' then [] :: l :: ls else (c :: l) :: ls

/-- Python `str.strip()` (whitespace variants beyond
`Char.isWhitespace` are not modelled). -/
def trimWS (l : List Char) : List Char :=
  ((l.dropWhile Char.isWhitespace).reverse.dropWhile Char.isWhitespace).reverse

/-- Python `str.split()` with no argument: split on runs of whitespace,
discarding empty pieces. -/
def wsplitAux : List Char → List Char → List (List Char)
  | [], acc => if acc.isEmpty then [] else [acc.reverse]
  | c :: rest, acc =>
    if c.isWhitespace then
      if acc.isEmpty then wsplitAux rest [] else acc.reverse :: wsplitAux rest []
    else wsplitAux rest (c :: acc)

def wsplit (l : List Char) : List (List Char) := wsplitAux l []

/-- Python `token.endswith(":")`. -/
def strEndsColon (s : String) : Bool := s.toList.getLast? = some ':'

/-- Python `token[:-1]`. -/
def strDropLast (s : String) : String := s.toList.dropLast.asString

/-- Python `token.startswith('"')`. -/
def strStartsQuote (s : String) : Bool := s.toList.head? = some '"'

/-- Python `token.endswith('"')`. -/
def strEndsQuote (s : String) : Bool := s.toList.getLast? = some '"'

/-- Python `token[1:-1]`. -/
def strInterior (s : String) : String := ((s.toList.drop 1).dropLast).asString

/-! ### Python numeric conversions -/

/-- Value of a nonempty all-digit character list, else `none`. -/
def digitsVal (l : List Char) : Option ℕ :=
  if l ≠ [] ∧ l.all Char.isDigit then
    some (l.foldl (fun a c => a * 10 + (c.toNat - 48)) 0)
  else none

/-- Python `int(s)` on a string: optional surrounding whitespace, an
optional sign, then decimal digits (digit-group underscores and
non-ASCII digits are not modelled).  `none` models `ValueError`. -/
def parseIntStr (s : String) : Option ℤ :=
  match trimWS s.toList with
  | '+' :: rest => (digitsVal rest).map (fun n => (n : ℤ))
  | '-' :: rest => (digitsVal rest).map (fun n => -(n : ℤ))
  | l => (digitsVal l).map (fun n => (n : ℤ))

/-- Python `int(float(tok))` on a numeric-literal token: optional sign,
decimal digits with an optional fractional part, truncated toward zero
(exponents, `inf`/`nan` and float rounding are not modelled).
`none` models `ValueError`. -/
def pyFloatTrunc (s : String) : Option ℤ :=
  let core : List Char → Option ℤ := fun l =>
    let ip := l.takeWhile (fun c => c ≠ '.')
    match l.drop ip.length with
    | [] => (digitsVal ip).map (fun n => (n : ℤ))
    | '.' :: fp =>
      if fp.all Char.isDigit ∧ (ip ≠ [] ∨ fp ≠ []) ∧ ip.all Char.isDigit then
        some ((ip.foldl (fun a c => a * 10 + (c.toNat - 48)) 0 : ℕ) : ℤ)
      else none
    | _ => none
  match trimWS s.toList with
  | '+' :: rest => core rest
  | '-' :: rest => (core rest).map (fun n => -n)
  | l => core l

/-- Python `int()` truncation of a float toward zero. -/
noncomputable def pyTrunc (r : ℝ) : ℤ := if 0 ≤ r then ⌊r⌋ else ⌈r⌉

/-- Python `int(v)` applied to a stack value. -/
noncomputable def pyInt : Value → Except Fault ℤ
  | .int i => .ok i
  | .str s =>
    match parseIntStr s with
    | some n => .ok n
    | none => .error .valueError
  | .real r => .ok (pyTrunc r)

/-! ### Python arithmetic on stack values -/

/-- Python `a + b` on the value shapes the interpreter can meet. -/
noncomputable def pyAdd : Value → Value → Except Fault Value
  | .int a, .int b => .ok (.int (a + b))
  | .int a, .real b => .ok (.real ((a : ℝ) + b))
  | .real a, .int b => .ok (.real (a + (b : ℝ)))
  | .real a, .real b => .ok (.real (a + b))
  | .str a, .str b => .ok (.str (a ++ b))
  | _, _ => .error .typeError

/-- Python `a - b`. -/
noncomputable def pySub : Value → Value → Except Fault Value
  | .int a, .int b => .ok (.int (a - b))
  | .int a, .real b => .ok (.real ((a : ℝ) - b))
  | .real a, .int b => .ok (.real (a - (b : ℝ)))
  | .real a, .real b => .ok (.real (a - b))
  | _, _ => .error .typeError

/-- Python string repetition `s * n`. -/
def strRepeat (s : String) (n : ℤ) : String :=
  String.join (List.replicate n.toNat s)

/-- Python `a * b`. -/
noncomputable def pyMul : Value → Value → Except Fault Value
  | .int a, .int b => .ok (.int (a * b))
  | .int a, .real b => .ok (.real ((a : ℝ) * b))
  | .real a, .int b => .ok (.real (a * (b : ℝ)))
  | .real a, .real b => .ok (.real (a * b))
  | .str a, .int b => .ok (.str (strRepeat a b))
  | .int a, .str b => .ok (.str (strRepeat b a))
  | _, _ => .error .typeError

/-- Python `a // b` (floor division; `ZeroDivisionError` on zero). -/
noncomputable def pyFloorDiv : Value → Value → Except Fault Value
  | .int a, .int b =>
    if b = 0 then .error .zeroDivision else .ok (.int (Int.fdiv a b))
  | .int a, .real b =>
    if b = 0 then .error .zeroDivision else .ok (.real ((⌊(a : ℝ) / b⌋ : ℤ) : ℝ))
  | .real a, .int b =>
    if b = 0 then .error .zeroDivision else .ok (.real ((⌊a / (b : ℝ)⌋ : ℤ) : ℝ))
  | .real a, .real b =>
    if b = 0 then .error .zeroDivision else .ok (.real ((⌊a / b⌋ : ℤ) : ℝ))
  | _, _ => .error .typeError

/-- Python `a % b` (sign follows the divisor; `ZeroDivisionError` on zero). -/
noncomputable def pyModV : Value → Value → Except Fault Value
  | .int a, .int b =>
    if b = 0 then .error .zeroDivision else .ok (.int (Int.fmod a b))
  | .int a, .real b =>
    if b = 0 then .error .zeroDivision else .ok (.real ((a : ℝ) - b * ⌊(a : ℝ) / b⌋))
  | .real a, .int b =>
    if b = 0 then .error .zeroDivision else .ok (.real (a - (b : ℝ) * ⌊a / (b : ℝ)⌋))
  | .real a, .real b =>
    if b = 0 then .error .zeroDivision else .ok (.real (a - b * ⌊a / b⌋))
  | _, _ => .error .typeError

/-- Python `1 if a < b else 0`. -/
noncomputable def pyLtV : Value → Value → Except Fault Value
  | .int a, .int b => .ok (.int (if a < b then 1 else 0))
  | .int a, .real b => .ok (.int (if (a : ℝ) < b then 1 else 0))
  | .real a, .int b => .ok (.int (if a < (b : ℝ) then 1 else 0))
  | .real a, .real b => .ok (.int (if a < b then 1 else 0))
  | .str a, .str b => .ok (.int (if a < b then 1 else 0))
  | _, _ => .error .typeError

/-- Python `1 if a > b else 0`. -/
noncomputable def pyGtV : Value → Value → Except Fault Value
  | .int a, .int b => .ok (.int (if b < a then 1 else 0))
  | .int a, .real b => .ok (.int (if b < (a : ℝ) then 1 else 0))
  | .real a, .int b => .ok (.int (if (b : ℝ) < a then 1 else 0))
  | .real a, .real b => .ok (.int (if b < a then 1 else 0))
  | .str a, .str b => .ok (.int (if b < a then 1 else 0))
  | _, _ => .error .typeError

/-- Python `1 if a == b else 0` (cross-type `==` is `False`, not an error). -/
noncomputable def pyEqV : Value → Value → Except Fault Value
  | .int a, .int b => .ok (.int (if a = b then 1 else 0))
  | .int a, .real b => .ok (.int (if (a : ℝ) = b then 1 else 0))
  | .real a, .int b => .ok (.int (if a = (b : ℝ) then 1 else 0))
  | .real a, .real b => .ok (.int (if a = b then 1 else 0))
  | .str a, .str b => .ok (.int (if a = b then 1 else 0))
  | _, _ => .ok (.int 0)

/-- Python truthiness of a stack value. -/
noncomputable def pyTruthy : Value → Bool
  | .int i => decide (i ≠ 0)
  | .str s => decide (s ≠ "")
  | .real r => decide (r ≠ 0)

/-! ### Tokenizer and label index (`RoboBot.tokenize`, `RoboBot.find_labels`) -/

/-- Tokens of one source line, per `RoboBot.tokenize`: strip the comment,
trim; a line containing `:` yields the trimmed left part with a colon
re-appended as one token, then the whitespace-split right part; any
other nonempty line is whitespace-split. -/
def lineTokens (line : List Char) : List String :=
  let l := trimWS (line.takeWhile (fun c => c ≠ '#'))
  if l.isEmpty then []
  else if l.contains ':' then
    let label_part := trimWS (l.takeWhile (fun c => c ≠ ':'))
    let rest_part := trimWS ((l.dropWhile (fun c => c ≠ ':')).drop 1)
    (label_part ++ [':']).asString ::
      (if rest_part.isEmpty then [] else (wsplit rest_part).map List.asString)
  else (wsplit l).map List.asString

/-- `RoboBot.tokenize`: the flat token stream and per-line token counts. -/
def tokenize (program : String) : List String × List ℕ :=
  let lines := splitNl program.toList
  ((lines.map lineTokens).flatten, lines.map (fun l => (lineTokens l).length))

/-- `RoboBot.find_labels`: map each `X:` token's name (with one layer of
surrounding double quotes stripped) to the index after it; later
definitions win. -/
def find_labels (tokens : List String) : String → Option ℤ :=
  tokens.enum.foldl
    (fun m p =>
      if strEndsColon p.2 then
        let label_name := strDropLast p.2
        let label_name :=
          if strStartsQuote label_name ∧ strEndsQuote label_name then
            strInterior label_name
          else label_name
        fun s => if s = label_name then some ((p.1 : ℤ) + 1) else m s
      else m)
    (fun _ => none)

/-! ### Bots, bullets, arena: data -/

/-- A bullet (`Bullet.__init__`). -/
structure Bullet where
  position : ℝ × ℝ
  direction : ℤ
  power : ℤ
  speed : ℤ
  owner : ℕ
  max_range : ℤ
  distance_traveled : ℤ

/-- A bot (`RoboBot.__init__`); `bid` models Python object identity. -/
structure RoboBot where
  bid : ℕ
  name : String
  program : String
  radius : ℝ
  tokens : List String
  token_counts : List ℕ
  position : ℝ × ℝ
  health : ℚ
  energy : ℤ
  tracks_direction : ℤ
  aim_direction : ℤ
  speed : ℤ
  pc : ℤ
  stack : List Value
  vars : String → Option Value
  labels : String → Option ℤ
  ops_per_tick : ℕ
  ops_executed : ℕ

/-- `RoboBot.__init__` from program text (position set from outside,
as in the source). -/
def RoboBot.make (bid : ℕ) (program name : String) : RoboBot :=
  { bid := bid
    name := name
    program := program
    radius := 10
    tokens := (tokenize program).1
    token_counts := (tokenize program).2
    position := (0, 0)
    health := 100
    energy := 100
    tracks_direction := 0
    aim_direction := 0
    speed := 0
    pc := 0
    stack := []
    vars := fun _ => none
    labels := find_labels (tokenize program).1
    ops_per_tick := 50
    ops_executed := 0 }

/-! ### Geometry -/

/-- `math.radians`. -/
noncomputable def degToRad (d : ℤ) : ℝ := (d : ℝ) * Real.pi / 180

/-- `RoboBot.move`: if moving, advance one Euler step along
`tracks_direction` (0° is up, clockwise) and clamp into the arena. -/
noncomputable def RoboBot.move (size : ℝ × ℝ) (st : RoboBot) : RoboBot :=
  if 0 < st.speed then
    let rad := degToRad (Int.fmod (st.tracks_direction - 90) 360)
    let dx := Real.cos rad * (st.speed : ℝ)
    let dy := Real.sin rad * (st.speed : ℝ)
    let new_x := max 0 (min size.1 (st.position.1 + dx))
    let new_y := max 0 (min size.2 (st.position.2 + dy))
    { st with position := (new_x, new_y) }
  else st

/-- `calculate_direction_change_cost`. -/
def calculate_direction_change_cost (current new : ℤ) : ℤ :=
  let diff := |current - new|
  if 180 < diff then 360 - diff else diff

/-- The per-target accumulator step of `RoboBot.scan_for_enemies`
(`none` models the initial `float("inf")`); unused locals of the source
(`distance`, `angle_to_target`) are omitted. -/
noncomputable def scanAux (st : RoboBot) : List RoboBot → Option ℝ → Option ℝ
  | [], acc => acc
  | bot :: rest, acc =>
    if bot.bid = st.bid then scanAux st rest acc
    else
      let dx := bot.position.1 - st.position.1
      let dy := bot.position.2 - st.position.2
      let aim_rad := degToRad (Int.fmod (st.aim_direction - 90) 360)
      let aim_x := Real.cos aim_rad
      let aim_y := Real.sin aim_rad
      let t := dx * aim_x + dy * aim_y
      if t < 0 then scanAux st rest acc
      else
        let closest_x := st.position.1 + aim_x * t
        let closest_y := st.position.2 + aim_y * t
        let pdx := closest_x - bot.position.1
        let pdy := closest_y - bot.position.2
        let perp := Real.sqrt (pdx * pdx + pdy * pdy)
        if perp ≤ bot.radius then
          let hit := t - Real.sqrt (bot.radius * bot.radius - perp * perp)
          match acc with
          | none =>
            if 0 < hit then scanAux st rest (some hit) else scanAux st rest acc
          | some m =>
            if 0 < hit ∧ hit < m then scanAux st rest (some hit) else scanAux st rest acc
        else scanAux st rest acc

/-- `RoboBot.scan_for_enemies` as the value it pushes: the minimum hit
distance, or the Python int `0` when no target is hit. -/
noncomputable def scan_for_enemies (st : RoboBot) (arenaBots : List RoboBot) : Value :=
  match scanAux st arenaBots none with
  | none => .int 0
  | some d => .real d

/-- `RoboBot.fire_weapon`: enqueue a bullet with the bot's position and
aim, the given power, and speed `10 + power`. -/
def fire_weapon (st : RoboBot) (power : ℤ) (bullets : List Bullet) : List Bullet :=
  bullets ++ [{ position := st.position
                direction := st.aim_direction
                power := power
                speed := 10 + power
                owner := st.bid
                max_range := 1000
                distance_traveled := 0 }]

/-! ### The interpreter (`RoboBot.execute_next`) -/

/-- Python list indexing `tokens[pc]` (negative indices wrap once;
out of range raises `IndexError`). -/
def pyIndex (l : List String) (i : ℤ) : Except Fault String :=
  let j : ℤ := if i < 0 then i + l.length else i
  if 0 ≤ j ∧ j < l.length then
    match l.get? j.toNat with
    | some t => .ok t
    | none => .error .indexError
  else .error .indexError

/-- Python `list.pop()` (raises `IndexError` on an empty list). -/
def popV : List Value → Except Fault (Value × List Value)
  | [] => .error .indexError
  | v :: rest => .ok (v, rest)

/-- `RoboBot.get_address_from_item`: ints index directly, anything else
is looked up in the label map (`KeyError` on a miss). -/
def get_address_from_item (st : RoboBot) : Value → Except Fault ℤ
  | .int i => .ok i
  | .str s =>
    match st.labels s with
    | some i => .ok i
    | none => .error .keyError
  | .real _ => .error .keyError

/-- The shared pop-pop-apply-push shape of the source's eight binary
arithmetic/comparison branches. -/
noncomputable def binArith (f : Value → Value → Except Fault Value)
    (bullets : List Bullet) (st : RoboBot) : Except Fault (RoboBot × List Bullet) :=
  match popV st.stack with
  | .error f1 => .error f1
  | .ok (b, r1) =>
    match popV r1 with
    | .error f2 => .error f2
    | .ok (a, r2) =>
      match f a b with
      | .error f3 => .error f3
      | .ok v => .ok ({ st with stack := v :: r2 }, bullets)

/-- `self.stack.append(v)` as a successful opcode result. -/
def pushResult (bullets : List Bullet) (st : RoboBot) (v : Value) :
    Except Fault (RoboBot × List Bullet) :=
  .ok ({ st with stack := v :: st.stack }, bullets)

/-- The `SETTRACKS` branch body. -/
noncomputable def opSETTRACKS (bullets : List Bullet) (st : RoboBot) :
    Except Fault (RoboBot × List Bullet) :=
  match popV st.stack with
  | .error f => .error f
  | .ok (v, rest) =>
    match pyInt v with
    | .error f => .error f
    | .ok d =>
      let new_direction := Int.fmod d 360
      let cost := calculate_direction_change_cost st.tracks_direction new_direction
      .ok ({ st with stack := rest
                     energy := st.energy - cost
                     tracks_direction := new_direction }, bullets)

/-- The `SETAIM` branch body (fixed cost 2). -/
noncomputable def opSETAIM (bullets : List Bullet) (st : RoboBot) :
    Except Fault (RoboBot × List Bullet) :=
  match popV st.stack with
  | .error f => .error f
  | .ok (v, rest) =>
    match pyInt v with
    | .error f => .error f
    | .ok d =>
      .ok ({ st with stack := rest
                     energy := st.energy - 2
                     aim_direction := Int.fmod d 360 }, bullets)

/-- The `SETSPEED` branch body (cost equals the clamped speed). -/
noncomputable def opSETSPEED (bullets : List Bullet) (st : RoboBot) :
    Except Fault (RoboBot × List Bullet) :=
  match popV st.stack with
  | .error f => .error f
  | .ok (v, rest) =>
    match pyInt v with
    | .error f => .error f
    | .ok s =>
      let new_speed := min 10 (max 0 s)
      .ok ({ st with stack := rest
                     energy := st.energy - new_speed
                     speed := new_speed }, bullets)

/-- The `FIRE` branch body (cost `2 * power`, then `fire_weapon`). -/
noncomputable def opFIRE (bullets : List Bullet) (st : RoboBot) :
    Except Fault (RoboBot × List Bullet) :=
  match popV st.stack with
  | .error f => .error f
  | .ok (v, rest) =>
    match pyInt v with
    | .error f => .error f
    | .ok p =>
      let power := min 10 (max 1 p)
      let st := { st with stack := rest, energy := st.energy - 2 * power }
      .ok (st, fire_weapon st power bullets)

/-- The `DUP` branch body (`self.stack[-1]` raises on an empty stack). -/
def opDUP (bullets : List Bullet) (st : RoboBot) :
    Except Fault (RoboBot × List Bullet) :=
  match st.stack with
  | [] => .error .indexError
  | v :: rest => .ok ({ st with stack := v :: v :: rest }, bullets)

/-- The `DROP` branch body. -/
def opDROP (bullets : List Bullet) (st : RoboBot) :
    Except Fault (RoboBot × List Bullet) :=
  match popV st.stack with
  | .error f => .error f
  | .ok (_, rest) => .ok ({ st with stack := rest }, bullets)

/-- The `SWAP` branch body (needs two items). -/
def opSWAP (bullets : List Bullet) (st : RoboBot) :
    Except Fault (RoboBot × List Bullet) :=
  match st.stack with
  | a :: b :: rest => .ok ({ st with stack := b :: a :: rest }, bullets)
  | _ => .error .indexError

/-- The `IFELSE` branch body: pop c, b, a; push `b if a else c`. -/
noncomputable def opIFELSE (bullets : List Bullet) (st : RoboBot) :
    Except Fault (RoboBot × List Bullet) :=
  match popV st.stack with
  | .error f => .error f
  | .ok (c, r1) =>
    match popV r1 with
    | .error f => .error f
    | .ok (b, r2) =>
      match popV r2 with
      | .error f => .error f
      | .ok (a, r3) =>
        .ok ({ st with stack := (if pyTruthy a then b else c) :: r3 }, bullets)

/-- The `JUMP` / `RETURN` branch body. -/
def opJUMP (bullets : List Bullet) (st : RoboBot) :
    Except Fault (RoboBot × List Bullet) :=
  match popV st.stack with
  | .error f => .error f
  | .ok (v, rest) =>
    match get_address_from_item st v with
    | .error f => .error f
    | .ok target => .ok ({ st with stack := rest, pc := target }, bullets)

/-- The `JUMPIF` branch body. -/
noncomputable def opJUMPIF (bullets : List Bullet) (st : RoboBot) :
    Except Fault (RoboBot × List Bullet) :=
  match popV st.stack with
  | .error f => .error f
  | .ok (v, r1) =>
    match get_address_from_item st v with
    | .error f => .error f
    | .ok target =>
      match popV r1 with
      | .error f => .error f
      | .ok (condition, r2) =>
        if pyTruthy condition then
          .ok ({ st with stack := r2, pc := target }, bullets)
        else .ok ({ st with stack := r2 }, bullets)

/-- The `CALL` branch body.  The source resolves the target and pushes
the return address, then executes `self.pc = self.labels[label]` where
`label` is an unbound identifier, so every `CALL` raises a `NameError`
(the push is lost with the dying bot). -/
def opCALL (_bullets : List Bullet) (st : RoboBot) :
    Except Fault (RoboBot × List Bullet) :=
  match popV st.stack with
  | .error f => .error f
  | .ok (v, _) =>
    match get_address_from_item st v with
    | .error f => .error f
    | .ok _ => .error .nameError

/-- The `CALLIF` branch body (this one is correct in the source). -/
noncomputable def opCALLIF (bullets : List Bullet) (st : RoboBot) :
    Except Fault (RoboBot × List Bullet) :=
  match popV st.stack with
  | .error f => .error f
  | .ok (v, r1) =>
    match get_address_from_item st v with
    | .error f => .error f
    | .ok target =>
      match popV r1 with
      | .error f => .error f
      | .ok (condition, r2) =>
        if pyTruthy condition then
          .ok ({ st with stack := .int st.pc :: r2, pc := target }, bullets)
        else .ok ({ st with stack := r2 }, bullets)

/-- The `STORE` branch body (the name must be a string). -/
def opSTORE (bullets : List Bullet) (st : RoboBot) :
    Except Fault (RoboBot × List Bullet) :=
  match popV st.stack with
  | .error f => .error f
  | .ok (vn, r1) =>
    match popV r1 with
    | .error f => .error f
    | .ok (vv, r2) =>
      match vn with
      | .str nm =>
        .ok ({ st with stack := r2
                       vars := fun s => if s = nm then some vv else st.vars s },
             bullets)
      | _ => .error .typeError

/-- The `LOAD` branch body (undefined variables load as `0`). -/
def opLOAD (bullets : List Bullet) (st : RoboBot) :
    Except Fault (RoboBot × List Bullet) :=
  match popV st.stack with
  | .error f => .error f
  | .ok (vn, rest) =>
    match vn with
    | .str nm =>
      .ok ({ st with stack := ((st.vars nm).getD (.int 0)) :: rest }, bullets)
    | _ => .error .typeError

/-- The fallthrough numeric-literal branch: `int(float(token))`. -/
def opNUM (token : String) (bullets : List Bullet) (st : RoboBot) :
    Except Fault (RoboBot × List Bullet) :=
  match pyFloatTrunc token with
  | some n => pushResult bullets st (.int n)
  | none => .error .valueError

/-- `RoboBot.execute_next`: one opcode.  Checks the stack bound, reads
the token at `pc`, advances `pc` and the opcode counter, then
dispatches exactly as the source's `elif` chain (each branch body is
its own definition above). -/
noncomputable def execute_next (arenaBots : List RoboBot) (bullets : List Bullet)
    (st0 : RoboBot) : Except Fault (RoboBot × List Bullet) :=
  if 100 < st0.stack.length then .error .stackOverflow
  else
    match pyIndex st0.tokens st0.pc with
    | .error f => .error f
    | .ok token =>
      let st := { st0 with pc := st0.pc + 1, ops_executed := st0.ops_executed + 1 }
      if strEndsColon token && (st.labels (strDropLast token)).isSome then
        .ok (st, bullets)
      else if token = "X" then pushResult bullets st (.int (pyTrunc st.position.1))
      else if token = "Y" then pushResult bullets st (.int (pyTrunc st.position.2))
      else if token = "TRACKS" then pushResult bullets st (.int st.tracks_direction)
      else if token = "AIM" then pushResult bullets st (.int st.aim_direction)
      else if token = "SPEED" then pushResult bullets st (.int st.speed)
      else if token = "HEALTH" then pushResult bullets st (.real (st.health : ℝ))
      else if token = "ENERGY" then pushResult bullets st (.int st.energy)
      else if token = "SCAN" then pushResult bullets st (scan_for_enemies st arenaBots)
      else if token = "SETTRACKS" then opSETTRACKS bullets st
      else if token = "SETAIM" then opSETAIM bullets st
      else if token = "SETSPEED" then opSETSPEED bullets st
      else if token = "FIRE" then opFIRE bullets st
      else if token = "DUP" then opDUP bullets st
      else if token = "DROP" then opDROP bullets st
      else if token = "SWAP" then opSWAP bullets st
      else if token = "IFELSE" then opIFELSE bullets st
      else if token = "+" then binArith pyAdd bullets st
      else if token = "-" then binArith pySub bullets st
      else if token = "*" then binArith pyMul bullets st
      else if token = "/" then binArith pyFloorDiv bullets st
      else if token = "%" then binArith pyModV bullets st
      else if token = "<" then binArith pyLtV bullets st
      else if token = ">" then binArith pyGtV bullets st
      else if token = "==" then binArith pyEqV bullets st
      else if token = "JUMP" ∨ token = "RETURN" then opJUMP bullets st
      else if token = "JUMPIF" then opJUMPIF bullets st
      else if token = "CALL" then opCALL bullets st
      else if token = "CALLIF" then opCALLIF bullets st
      else if strStartsQuote token && strEndsQuote token then
        pushResult bullets st (.str (strInterior token))
      else if token = "STORE" then opSTORE bullets st
      else if token = "LOAD" then opLOAD bullets st
      else opNUM token bullets st

/-! ### The per-tick bot driver (`RoboBot.tick`) -/

/-- The source's `while self.ops_executed < self.ops_per_tick` loop.
`execute_next` increments the opcode counter on every successful step,
so any `fuel > ops_per_tick` is enough; a raised fault is caught here,
as by the source's `try/except`, and kills the bot. -/
noncomputable def runLoop (arenaBots : List RoboBot) :
    ℕ → List Bullet → RoboBot → RoboBot × List Bullet
  | 0, bullets, st => (st, bullets)
  | fuel + 1, bullets, st =>
    if st.ops_executed < st.ops_per_tick then
      if st.energy < 0 then (st, bullets)
      else
        match execute_next arenaBots bullets st with
        | .ok r => runLoop arenaBots fuel r.2 r.1
        | .error _ => ({ st with health := 0 }, bullets)
    else (st, bullets)

/-- `RoboBot.tick`: skip dead bots, regenerate and cap energy, bail out
on negative energy, move, then run the bounded opcode loop. -/
noncomputable def RoboBot.tick (size : ℝ × ℝ) (arenaBots : List RoboBot)
    (bullets : List Bullet) (st : RoboBot) : RoboBot × List Bullet :=
  if st.health ≤ 0 then (st, bullets)
  else
    let st := { st with energy := st.energy + 5 }
    if st.energy < 0 then (st, bullets)
    else
      let st := if 100 < st.energy then { st with energy := 100 } else st
      let st := st.move size
      let st := { st with ops_executed := 0 }
      runLoop arenaBots (st.ops_per_tick + 1) bullets st

/-! ### Projectiles in flight and the arena -/

/-- `Bullet.move`: one Euler step along the bullet's fixed direction. -/
noncomputable def Bullet.move (b : Bullet) : Bullet :=
  let rad := degToRad (Int.fmod (b.direction - 90) 360)
  let dx := Real.cos rad * (b.speed : ℝ)
  let dy := Real.sin rad * (b.speed : ℝ)
  { b with position := (b.position.1 + dx, b.position.2 + dy)
           distance_traveled := b.distance_traveled + b.speed }

/-- `Bullet.is_expired`. -/
def Bullet.is_expired (b : Bullet) : Bool := decide (b.max_range ≤ b.distance_traveled)

/-- The damage a bullet deals on a hit:
`power * (1 - distance_traveled / max_range)`. -/
def Bullet.damage (b : Bullet) : ℚ :=
  (b.power : ℚ) * (1 - (b.distance_traveled : ℚ) / (b.max_range : ℚ))

/-- The inner `for bot in self.bots` loop of `Arena.update_bullets`:
damage the first non-owner bot within its radius of the bullet and
report the hit, else leave the bots unchanged. -/
noncomputable def hitFirst (b : Bullet) : List RoboBot → Option (List RoboBot)
  | [] => none
  | bot :: rest =>
    if bot.bid = b.owner then (hitFirst b rest).map (fun l => bot :: l)
    else
      let dx := bot.position.1 - b.position.1
      let dy := bot.position.2 - b.position.2
      if Real.sqrt (dx * dx + dy * dy) < bot.radius then
        some ({ bot with health := bot.health - b.damage } :: rest)
      else (hitFirst b rest).map (fun l => bot :: l)

/-- The per-bullet body of the `for bullet in self.bullets` hit loop of
`Arena.update_bullets`: drop the bullet if expired, else consume it on
a first hit (damaging that bot) or keep it. -/
noncomputable def resolveBullet (acc : List RoboBot × List Bullet) (b : Bullet) :
    List RoboBot × List Bullet :=
  if b.is_expired then acc
  else
    match hitFirst b acc.1 with
    | some bots' => (bots', acc.2)
    | none => (acc.1, acc.2 ++ [b])

/-- `Arena.update_bullets`: move every bullet in the list, then drop
expired bullets, apply first-hit damage and keep the unconsumed
bullets in order. -/
noncomputable def update_bullets (bots : List RoboBot) (bullets : List Bullet) :
    List RoboBot × List Bullet :=
  let moved := bullets.map Bullet.move
  moved.foldl resolveBullet (bots, [])

/-- The arena (`Arena.__init__` with the bots and bullets it owns). -/
structure Arena where
  size : ℝ × ℝ
  bots : List RoboBot
  bullets : List Bullet
  tick_count : ℕ

/-- The `for bot in self.bots: bot.tick(self)` phase of `Arena.tick`:
each bot in insertion order runs against the arena as updated by its
predecessors (the list is indexed because Python mutates the bots in
place while iterating). -/
noncomputable def botsPhaseAux (size : ℝ × ℝ) :
    ℕ → ℕ → List RoboBot → List Bullet → List RoboBot × List Bullet
  | 0, _, bots, bullets => (bots, bullets)
  | n + 1, i, bots, bullets =>
    match bots.get? i with
    | none => (bots, bullets)
    | some b =>
      let r := RoboBot.tick size bots bullets b
      botsPhaseAux size n (i + 1) (bots.set i r.1) r.2

noncomputable def botsPhase (size : ℝ × ℝ) (bots : List RoboBot)
    (bullets : List Bullet) : List RoboBot × List Bullet :=
  botsPhaseAux size bots.length 0 bots bullets

/-- `Arena.tick`: bump the tick count, run every bot, then move and
resolve every bullet then in the list, then prune dead bots. -/
noncomputable def Arena.tick (a : Arena) : Arena :=
  let bb := botsPhase a.size a.bots a.bullets
  let ub := update_bullets bb.1 bb.2
  { size := a.size
    bots := ub.1.filter (fun b => decide (0 < b.health))
    bullets := ub.2
    tick_count := a.tick_count + 1 }

/-- `Arena.is_battle_over`. -/
def Arena.is_battle_over (a : Arena) : Bool := decide (a.bots.length ≤ 1)

/-- `Arena.get_winner`. -/
def Arena.get_winner (a : Arena) : Option RoboBot :=
  match a.bots with
  | [b] => some b
  | _ => none

/-- Geometry-only agreement between bot lists: same ids, positions and
radii componentwise (healths may differ). -/
def sameGeom (l1 l2 : List RoboBot) : Prop :=
  List.Forall₂
    (fun b1 b2 => b1.bid = b2.bid ∧ b1.position = b2.position ∧ b1.radius = b2.radius)
    l1 l2

/-! ### Concrete scenario states used by the checks -/

/-- Scenario S5: a bot with `tracks = 10` about to run `SETTRACKS` on
operand `350`. -/
def c9bot : RoboBot :=
  { RoboBot.make 0 "350 SETTRACKS" "t" with
      pc := 1, stack := [.int 350], tracks_direction := 10 }

/-- A bot about to run `FIRE` on operand `5`. -/
def c8bot : RoboBot :=
  { RoboBot.make 0 "FIRE" "f" with
      position := (100, 100), aim_direction := 180, stack := [.int 5] }

/-- A bot about to run `SETSPEED` on the numeric string `"5"`. -/
def c10bot : RoboBot :=
  { RoboBot.make 0 "SETSPEED" "n" with stack := [.str "5"] }

/-- A bot about to run `SETSPEED` on the non-numeric string `"abc"`. -/
def c10bot2 : RoboBot :=
  { RoboBot.make 0 "SETSPEED" "n" with stack := [.str "abc"] }

/-- A bot whose program is `"sub" CALL` / `sub: 0`, paused just before
the `CALL` with the resolvable target `"sub"` on the stack. -/
def c1bot : RoboBot :=
  { RoboBot.make 0 "\"sub\" CALL\nsub: 0" "c" with pc := 1, stack := [.str "sub"] }

/-- A fresh bot on the program `loop: 0`, whose first token is the
(unquoted) label definition `loop:`. -/
def c5bot : RoboBot := RoboBot.make 0 "loop: 0" "l"

/-- A fresh bot on the program `"x": 1`, whose first token is the label
definition `"x":` written with a quoted name (the label index holds the
stripped key `x`). -/
def c5qbot : RoboBot := RoboBot.make 0 "\"x\": 1" "q"

/-- A bot about to run `DUP` at the bound depth 100. -/
def c3bot : RoboBot :=
  { RoboBot.make 0 "DUP" "d" with stack := List.replicate 100 (.int 0) }

/-- A bot whose operand stack already has depth 101. -/
def c3obot : RoboBot :=
  { RoboBot.make 1 "DUP" "o" with stack := List.replicate 101 (.int 0) }

/-- Scenario S6 bot A: its program divides by zero. -/
def c6A : RoboBot := { RoboBot.make 0 "0 0 /" "A" with position := (50, 50) }

/-- Scenario S6 bot B: a harmless program that runs its energy negative
and stops cleanly. -/
def c6B : RoboBot :=
  { RoboBot.make 1 "180 SETTRACKS 180 SETTRACKS" "B" with position := (300, 300) }

/-- Scenario S6 arena with bots A and B. -/
def c6arena : Arena :=
  { size := (400, 400), bots := [c6A, c6B], bullets := [], tick_count := 0 }

/-- Bot A one opcode before its division by zero. -/
def c6st : RoboBot :=
  { c6A with pc := 2, stack := [.int 0, .int 0], ops_executed := 2 }

/-- A bot that fires a power-5 bullet (aim 0) and then runs its energy
negative in the same tick. -/
def c2bot : RoboBot :=
  { RoboBot.make 0 "5 FIRE 180 SETTRACKS 180 SETTRACKS" "F" with
      position := (100, 100) }

/-- An arena holding only `c2bot` and, before the tick, no bullets. -/
def c2arena : Arena :=
  { size := (400, 400), bots := [c2bot], bullets := [], tick_count := 0 }

/-- Scenario S4 shooter at `(100,100)` aiming 180° (straight down). -/
def c4bot0 : RoboBot :=
  { RoboBot.make 0 "" "P" with position := (100, 100), aim_direction := 180 }

/-- Scenario S4 target at `(100,300)` (radius 10). -/
def c4bot1 : RoboBot := { RoboBot.make 1 "" "Q" with position := (100, 300) }

/-- The bullet `FIRE` on operand 5 creates for `c4bot0`
(power 5, speed 15). -/
def c4bullet : Bullet :=
  { position := (100, 100), direction := 180, power := 5, speed := 15,
    owner := 0, max_range := 1000, distance_traveled := 0 }

/-- One bullet step of scenario S4: `Arena.update_bullets` on the
current bots and bullets (the bots sit still). -/
noncomputable def c4step (s : List RoboBot × List Bullet) :
    List RoboBot × List Bullet :=
  update_bullets s.1 s.2

/-- Scenario S4 after `n` bullet-move steps. -/
noncomputable def c4state (n : ℕ) : List RoboBot × List Bullet :=
  c4step^[n] ([c4bot0, c4bot1], [c4bullet])

/-- The S4 bullet after `k` straight-down steps. -/
noncomputable def c4bulletAt (k : ℕ) : Bullet :=
  { c4bullet with position := (100, 100 + 15 * (k : ℝ))
                  distance_traveled := 15 * (k : ℤ) }

/-- A scanning bot at `(100,100)` aiming 180°. -/
def c7scanner : RoboBot :=
  { RoboBot.make 0 "" "S" with position := (100, 100), aim_direction := 180 }

/-- A dead bot (health 0) at `(100,300)`. -/
def c7dead : RoboBot :=
  { RoboBot.make 1 "" "D" with position := (100, 300), health := 0 }

/-- A bullet owned by `c7scanner`, one move short of the dead bot. -/
def c7pre : Bullet :=
  { position := (100, 280), direction := 180, power := 5, speed := 15,
    owner := 0, max_range := 1000, distance_traveled := 180 }

/-! ### General lemmas -/

/-- Python `d % 360` (sign of the divisor) written with Lean's
Euclidean `%`. -/
theorem fmod_360 (d : ℤ) : Int.fmod d 360 = ((d % 360) + 360) % 360 := by
  rw [Int.fmod_eq_emod _ (by norm_num : (0 : ℤ) ≤ 360)]
  omega

theorem fmod_360_nonneg (d : ℤ) : 0 ≤ Int.fmod d 360 := by
  rw [fmod_360]; omega

theorem fmod_360_lt (d : ℤ) : Int.fmod d 360 < 360 := by
  rw [fmod_360]; omega

/-- On directions in `[0, 360)` the source's direction-change cost is
the wrap-around angular distance. -/
theorem cost_min (a b : ℤ) :
    calculate_direction_change_cost a b = min |a - b| (360 - |a - b|) := by
  unfold calculate_direction_change_cost
  simp only [min_def]
  rcases abs_cases (a - b) with ⟨h, h2⟩ | ⟨h, h2⟩ <;> rw [h] <;> split_ifs <;> omega

/-! ## Claim C9: SETTRACKS semantics -/

/-- C9: executing `SETTRACKS` on an integer operand `d` with the old
direction `a` in `[0,360)` pops the operand, sets `tracks_direction` to
`((d mod 360) + 360) mod 360`, and debits exactly
`min (|a − new|) (360 − |a − new|)` energy. -/
theorem c9_settracks (bots : List RoboBot) (bullets : List Bullet) (st : RoboBot)
    (d : ℤ) (rest : List Value)
    (h1 : pyIndex st.tokens st.pc = .ok "SETTRACKS")
    (h2 : st.stack = .int d :: rest)
    (h3 : st.stack.length ≤ 100)
    (_h4 : 0 ≤ st.tracks_direction) (_h5 : st.tracks_direction < 360) :
    execute_next bots bullets st =
      .ok ({ st with pc := st.pc + 1, ops_executed := st.ops_executed + 1,
                     stack := rest,
                     energy := st.energy -
                       min |st.tracks_direction - (((d % 360) + 360) % 360)|
                           (360 - |st.tracks_direction - (((d % 360) + 360) % 360)|),
                     tracks_direction := ((d % 360) + 360) % 360 }, bullets) := by
  unfold execute_next
  rw [if_neg (by omega : ¬ 100 < st.stack.length), h1]
  simp +decide [opSETTRACKS, h2, popV, pyInt, fmod_360]
  exact cost_min _ _

theorem c9_settracks_witness :
    execute_next [] [] c9bot =
      .ok ({ c9bot with pc := 1 + 1, ops_executed := 0 + 1, stack := [],
                        energy := 100 -
                          min |10 - (((350 % 360) + 360) % 360)|
                              (360 - |10 - (((350 % 360) + 360) % 360)|),
                        tracks_direction := ((350 % 360) + 360) % 360 }, []) :=
  c9_settracks [] [] c9bot 350 [] rfl rfl (by decide) (by decide) (by decide)

/-! ## Claim C8: FIRE semantics -/

/-- C8: executing `FIRE` on an integer operand `p` pops it, debits
exactly `2 · clamp(p,1,10)` energy, and appends exactly one bullet
carrying the bot's current position and aim, power `clamp(p,1,10)` and
speed `10 + clamp(p,1,10)` to the arena's bullet list. -/
theorem c8_fire (bots : List RoboBot) (bullets : List Bullet) (st : RoboBot)
    (p : ℤ) (rest : List Value)
    (h1 : pyIndex st.tokens st.pc = .ok "FIRE")
    (h2 : st.stack = .int p :: rest)
    (h3 : st.stack.length ≤ 100) :
    execute_next bots bullets st =
      .ok ({ st with pc := st.pc + 1, ops_executed := st.ops_executed + 1,
                     stack := rest,
                     energy := st.energy - 2 * min 10 (max 1 p) },
           bullets ++
             [{ position := st.position
                direction := st.aim_direction
                power := min 10 (max 1 p)
                speed := 10 + min 10 (max 1 p)
                owner := st.bid
                max_range := 1000
                distance_traveled := 0 }]) := by
  unfold execute_next
  rw [if_neg (by omega : ¬ 100 < st.stack.length), h1]
  simp +decide [opFIRE, h2, popV, pyInt, fire_weapon]

theorem c8_fire_witness :
    execute_next [] [] c8bot =
      .ok ({ c8bot with pc := 0 + 1, ops_executed := 0 + 1, stack := [],
                        energy := 100 - 2 * min 10 (max 1 5) },
           [{ position := ((100 : ℝ), (100 : ℝ))
              direction := 180
              power := min 10 (max 1 5)
              speed := 10 + min 10 (max 1 5)
              owner := 0
              max_range := 1000
              distance_traveled := 0 }]) :=
  c8_fire [] [] c8bot 5 [] rfl rfl (by decide)

/-! ## Claim C10: actuator operands are int-coerced, not type-checked -/

/-- C10: every actuator (`SETTRACKS`, `SETAIM`, `SETSPEED`, `FIRE`)
coerces its popped operand with Python `int(...)`: a string that parses
as a decimal integer behaves exactly like that integer, and a
non-numeric string raises a fatal `ValueError` (never a type error). -/
theorem c10_actuator_coercion (tok : String)
    (htok : tok = "SETTRACKS" ∨ tok = "SETAIM" ∨ tok = "SETSPEED" ∨ tok = "FIRE")
    (bots : List RoboBot) (bullets : List Bullet) (st : RoboBot)
    (s : String) (rest : List Value)
    (h1 : pyIndex st.tokens st.pc = .ok tok)
    (h2 : st.stack = .str s :: rest)
    (h3 : st.stack.length ≤ 100) :
    (∀ n : ℤ, parseIntStr s = some n →
      execute_next bots bullets st =
        execute_next bots bullets { st with stack := .int n :: rest }) ∧
    (parseIntStr s = none → execute_next bots bullets st = .error .valueError) := by
  have hlen : ¬ 100 < st.stack.length := by omega
  have hlen2 : ∀ v : Value, ¬ (100 : ℕ) < (v :: rest).length := by
    intro v
    have := h3
    rw [h2] at this
    simpa using this
  constructor
  · intro n hn
    rcases htok with h | h | h | h <;> subst h <;>
      (unfold execute_next
       simp +decide [opSETTRACKS, opSETAIM, opSETSPEED, opFIRE,
         hlen, hlen2, h1, h2, popV, pyInt, hn])
  · intro hn
    have hr : rest.length ≤ 99 := by
      rw [h2] at h3
      simpa using h3
    rcases htok with h | h | h | h <;> subst h <;>
      (unfold execute_next
       simp +decide [opSETTRACKS, opSETAIM, opSETSPEED, opFIRE,
         hlen, h1, h2, popV, pyInt, hn, hr])

theorem c10_actuator_coercion_witness :
    (execute_next [] [] c10bot =
      execute_next [] [] { c10bot with stack := [.int 5] }) ∧
    execute_next [] [] c10bot2 = .error .valueError :=
  ⟨(c10_actuator_coercion "SETSPEED" (by tauto) [] [] c10bot "5" [] rfl rfl
      (by decide)).1 5 (by decide),
   (c10_actuator_coercion "SETSPEED" (by tauto) [] [] c10bot2 "abc" [] rfl rfl
      (by decide)).2 (by decide)⟩

/-! ## Claim C1: CALL -/

/-- C1: on the embedded source, executing `CALL` with a valid popped
target (an integer, or a string naming a known label) always raises a
`NameError` — the source's `CALL` branch reads the unbound identifier
`label` after pushing the return address — instead of transferring
control to the resolved target as the specification prescribes. -/
theorem c1_call_nameerror (bots : List RoboBot) (bullets : List Bullet)
    (st : RoboBot) (v : Value) (rest : List Value)
    (h1 : pyIndex st.tokens st.pc = .ok "CALL")
    (h2 : st.stack = v :: rest)
    (h3 : st.stack.length ≤ 100)
    (h4 : (∃ i : ℤ, v = .int i) ∨ ∃ s : String, v = .str s ∧ (st.labels s).isSome) :
    execute_next bots bullets st = .error .nameError := by
  unfold execute_next
  rw [if_neg (by omega : ¬ 100 < st.stack.length), h1]
  rcases h4 with ⟨i, hv⟩ | ⟨s, hv, hsome⟩ <;> subst hv <;>
    simp +decide [opCALL, h2, popV, get_address_from_item]
  rcases Option.isSome_iff_exists.mp hsome with ⟨j, hj⟩
  simp [hj]

theorem c1_call_nameerror_witness :
    execute_next [] [] c1bot = .error .nameError :=
  c1_call_nameerror [] [] c1bot (.str "sub") [] rfl rfl (by decide)
    (.inr ⟨"sub", rfl, by decide⟩)

/-! ## Claim C5: label definitions at runtime -/

/-- C5 (amended): a token ending in `:` whose colon-stripped text — with
no quote stripping — is a key of the label index is a runtime no-op: it
only advances the program counter and the opcode counter. -/
theorem c5_label_noop (bots : List RoboBot) (bullets : List Bullet)
    (st : RoboBot) (tok : String)
    (h1 : pyIndex st.tokens st.pc = .ok tok)
    (h2 : strEndsColon tok = true)
    (h3 : (st.labels (strDropLast tok)).isSome = true)
    (h4 : st.stack.length ≤ 100) :
    execute_next bots bullets st =
      .ok ({ st with pc := st.pc + 1, ops_executed := st.ops_executed + 1 },
           bullets) := by
  unfold execute_next
  rw [if_neg (by omega : ¬ 100 < st.stack.length), h1]
  simp [h2, h3]

theorem c5_label_noop_witness :
    execute_next [] [] c5bot =
      .ok ({ c5bot with pc := 0 + 1, ops_executed := 0 + 1 }, []) :=
  c5_label_noop [] [] c5bot "loop:" rfl (by decide) (by decide) (by decide)

/-- C5 counterexample: a label definition written with a quoted name is
*not* a runtime no-op.  `find_labels` strips the quotes (the index maps
`x` to 1), but the runtime label test looks up the unstripped text
`"x"`, misses, and the token falls through to numeric parsing, raising
a fatal `ValueError`. -/
theorem c5_quoted_label_fault :
    c5qbot.tokens = ["\"x\":", "1"] ∧
    c5qbot.labels "x" = some 1 ∧
    execute_next [] [] c5qbot = .error .valueError := by
  refine ⟨by decide, by decide, ?_⟩
  rfl

/-! ## Claim C3: the operand-stack bound -/

/-- Stack-length facts for each opcode branch body: a successful branch
grows the stack by at most one. -/
theorem pushResult_stack {bullets : List Bullet} {st st' : RoboBot} {bl : List Bullet}
    {v : Value} (h : pushResult bullets st v = .ok (st', bl)) :
    st'.stack.length ≤ st.stack.length + 1 := by
  unfold pushResult at h
  simp at h
  rw [← h.1]
  simp

theorem binArith_stack {f : Value → Value → Except Fault Value}
    {bullets : List Bullet} {st st' : RoboBot} {bl : List Bullet}
    (h : binArith f bullets st = .ok (st', bl)) :
    st'.stack.length ≤ st.stack.length + 1 := by
  unfold binArith at h
  rcases hs : st.stack with _ | ⟨b, r1⟩ <;> simp [hs, popV] at h
  rcases r1 with _ | ⟨a, r2⟩ <;> simp [popV] at h
  rcases hf : f a b with f' | v <;> rw [hf] at h <;> simp at h
  rw [← h.1]
  simp [hs]

theorem opSETTRACKS_stack {bullets : List Bullet} {st st' : RoboBot} {bl : List Bullet}
    (h : opSETTRACKS bullets st = .ok (st', bl)) :
    st'.stack.length ≤ st.stack.length + 1 := by
  unfold opSETTRACKS at h
  rcases hs : st.stack with _ | ⟨v, rest⟩ <;> simp [hs, popV] at h
  rcases hv : pyInt v with f | d <;> simp [hv] at h
  rw [← h.1]
  simp [hs]
  omega

theorem opSETAIM_stack {bullets : List Bullet} {st st' : RoboBot} {bl : List Bullet}
    (h : opSETAIM bullets st = .ok (st', bl)) :
    st'.stack.length ≤ st.stack.length + 1 := by
  unfold opSETAIM at h
  rcases hs : st.stack with _ | ⟨v, rest⟩ <;> simp [hs, popV] at h
  rcases hv : pyInt v with f | d <;> simp [hv] at h
  rw [← h.1]
  simp [hs]
  omega

theorem opSETSPEED_stack {bullets : List Bullet} {st st' : RoboBot} {bl : List Bullet}
    (h : opSETSPEED bullets st = .ok (st', bl)) :
    st'.stack.length ≤ st.stack.length + 1 := by
  unfold opSETSPEED at h
  rcases hs : st.stack with _ | ⟨v, rest⟩ <;> simp [hs, popV] at h
  rcases hv : pyInt v with f | d <;> simp [hv] at h
  rw [← h.1]
  simp [hs]
  omega

theorem opFIRE_stack {bullets : List Bullet} {st st' : RoboBot} {bl : List Bullet}
    (h : opFIRE bullets st = .ok (st', bl)) :
    st'.stack.length ≤ st.stack.length + 1 := by
  unfold opFIRE at h
  rcases hs : st.stack with _ | ⟨v, rest⟩ <;> simp [hs, popV] at h
  rcases hv : pyInt v with f | d <;> simp [hv] at h
  rw [← h.1]
  simp [hs]
  omega

theorem opDUP_stack {bullets : List Bullet} {st st' : RoboBot} {bl : List Bullet}
    (h : opDUP bullets st = .ok (st', bl)) :
    st'.stack.length ≤ st.stack.length + 1 := by
  unfold opDUP at h
  rcases hs : st.stack with _ | ⟨v, rest⟩ <;> simp [hs] at h
  rw [← h.1]
  simp [hs]

theorem opDROP_stack {bullets : List Bullet} {st st' : RoboBot} {bl : List Bullet}
    (h : opDROP bullets st = .ok (st', bl)) :
    st'.stack.length ≤ st.stack.length + 1 := by
  unfold opDROP at h
  rcases hs : st.stack with _ | ⟨v, rest⟩ <;> simp [hs, popV] at h
  rw [← h.1]
  simp [hs]
  omega

theorem opSWAP_stack {bullets : List Bullet} {st st' : RoboBot} {bl : List Bullet}
    (h : opSWAP bullets st = .ok (st', bl)) :
    st'.stack.length ≤ st.stack.length + 1 := by
  unfold opSWAP at h
  rcases hs : st.stack with _ | ⟨a, _ | ⟨b, rest⟩⟩ <;> simp [hs] at h
  rw [← h.1]
  simp [hs]

theorem opIFELSE_stack {bullets : List Bullet} {st st' : RoboBot} {bl : List Bullet}
    (h : opIFELSE bullets st = .ok (st', bl)) :
    st'.stack.length ≤ st.stack.length + 1 := by
  unfold opIFELSE at h
  rcases hs : st.stack with _ | ⟨c, _ | ⟨b, _ | ⟨a, r3⟩⟩⟩ <;> simp [hs, popV] at h
  rw [← h.1]
  simp [hs]

theorem opJUMP_stack {bullets : List Bullet} {st st' : RoboBot} {bl : List Bullet}
    (h : opJUMP bullets st = .ok (st', bl)) :
    st'.stack.length ≤ st.stack.length + 1 := by
  unfold opJUMP at h
  rcases hs : st.stack with _ | ⟨v, rest⟩ <;> simp [hs, popV] at h
  rcases ha : get_address_from_item st v with f | t <;> simp [ha] at h
  rw [← h.1]
  simp [hs]
  omega

theorem opJUMPIF_stack {bullets : List Bullet} {st st' : RoboBot} {bl : List Bullet}
    (h : opJUMPIF bullets st = .ok (st', bl)) :
    st'.stack.length ≤ st.stack.length + 1 := by
  unfold opJUMPIF at h
  rcases hs : st.stack with _ | ⟨v, r1⟩ <;> simp [hs, popV] at h
  rcases ha : get_address_from_item st v with f | t <;> simp [ha] at h
  rcases r1 with _ | ⟨c, r2⟩ <;> simp [popV] at h
  split at h <;> simp at h <;> rw [← h.1] <;> simp [hs] <;> omega

theorem opCALL_not_ok {bullets : List Bullet} {st : RoboBot}
    {x : RoboBot × List Bullet} (h : opCALL bullets st = .ok x) : False := by
  unfold opCALL at h
  rcases hs : st.stack with _ | ⟨v, rest⟩ <;> simp [hs, popV] at h
  rcases ha : get_address_from_item st v with f | t <;> simp [ha] at h

theorem opCALLIF_stack {bullets : List Bullet} {st st' : RoboBot} {bl : List Bullet}
    (h : opCALLIF bullets st = .ok (st', bl)) :
    st'.stack.length ≤ st.stack.length + 1 := by
  unfold opCALLIF at h
  rcases hs : st.stack with _ | ⟨v, r1⟩ <;> simp [hs, popV] at h
  rcases ha : get_address_from_item st v with f | t <;> simp [ha] at h
  rcases r1 with _ | ⟨c, r2⟩ <;> simp [popV] at h
  split at h <;> simp at h <;> rw [← h.1] <;> simp [hs] <;> omega

theorem opSTORE_stack {bullets : List Bullet} {st st' : RoboBot} {bl : List Bullet}
    (h : opSTORE bullets st = .ok (st', bl)) :
    st'.stack.length ≤ st.stack.length + 1 := by
  unfold opSTORE at h
  rcases hs : st.stack with _ | ⟨vn, _ | ⟨vv, r2⟩⟩ <;> simp [hs, popV] at h
  rcases vn <;> simp at h
  rw [← h.1]
  simp [hs]
  omega

theorem opLOAD_stack {bullets : List Bullet} {st st' : RoboBot} {bl : List Bullet}
    (h : opLOAD bullets st = .ok (st', bl)) :
    st'.stack.length ≤ st.stack.length + 1 := by
  unfold opLOAD at h
  rcases hs : st.stack with _ | ⟨vn, rest⟩ <;> simp [hs, popV] at h
  rcases vn <;> simp at h <;> rw [← h.1] <;> simp [hs] <;> omega

theorem opNUM_stack {token : String} {bullets : List Bullet} {st st' : RoboBot}
    {bl : List Bullet} (h : opNUM token bullets st = .ok (st', bl)) :
    st'.stack.length ≤ st.stack.length + 1 := by
  unfold opNUM at h
  rcases hn : pyFloatTrunc token with _ | n <;> rw [hn] at h <;> simp at h
  exact pushResult_stack h

set_option maxHeartbeats 1000000 in
/-- C3 (amended): before dispatch, a stack depth strictly above 100
faults with a stack overflow; a successful opcode therefore starts from
depth at most 100 and leaves the stack at most one deeper, so the depth
never exceeds 101 (it can transiently reach 101, which the next
dispatch faults on). -/
theorem c3_stack_bound (bots : List RoboBot) (bullets : List Bullet) (st : RoboBot) :
    (100 < st.stack.length → execute_next bots bullets st = .error .stackOverflow) ∧
    (∀ st' bl, execute_next bots bullets st = .ok (st', bl) →
      st.stack.length ≤ 100 ∧ st'.stack.length ≤ st.stack.length + 1) := by
  constructor
  · intro hlen
    unfold execute_next
    rw [if_pos hlen]
  intro st' bl h
  unfold execute_next at h
  by_cases hlen : 100 < st.stack.length
  · rw [if_pos hlen] at h
    exact absurd h (by simp)
  · rw [if_neg hlen] at h
    refine ⟨by omega, ?_⟩
    rcases hp : pyIndex st.tokens st.pc with f | token <;> rw [hp] at h
    · simp at h
    · dsimp only at h
      generalize hst : ({ st with pc := st.pc + 1, ops_executed := st.ops_executed + 1 } : RoboBot) = st1 at h
      have hss : st1.stack = st.stack := by rw [← hst]
      have hss2 : st1.stack.length = st.stack.length := by rw [hss]
      by_cases e0 : (strEndsColon token && (st.labels (strDropLast token)).isSome) = true
      · rw [if_pos e0] at h
        simp at h
        rw [← h.1]
        omega
      · rw [if_neg e0] at h
        by_cases e1 : token = "X"
        · rw [if_pos e1] at h
          have hb := pushResult_stack h
          omega
        · rw [if_neg e1] at h
          by_cases e2 : token = "Y"
          · rw [if_pos e2] at h
            have hb := pushResult_stack h
            omega
          · rw [if_neg e2] at h
            by_cases e3 : token = "TRACKS"
            · rw [if_pos e3] at h
              have hb := pushResult_stack h
              omega
            · rw [if_neg e3] at h
              by_cases e4 : token = "AIM"
              · rw [if_pos e4] at h
                have hb := pushResult_stack h
                omega
              · rw [if_neg e4] at h
                by_cases e5 : token = "SPEED"
                · rw [if_pos e5] at h
                  have hb := pushResult_stack h
                  omega
                · rw [if_neg e5] at h
                  by_cases e6 : token = "HEALTH"
                  · rw [if_pos e6] at h
                    have hb := pushResult_stack h
                    omega
                  · rw [if_neg e6] at h
                    by_cases e7 : token = "ENERGY"
                    · rw [if_pos e7] at h
                      have hb := pushResult_stack h
                      omega
                    · rw [if_neg e7] at h
                      by_cases e8 : token = "SCAN"
                      · rw [if_pos e8] at h
                        have hb := pushResult_stack h
                        omega
                      · rw [if_neg e8] at h
                        by_cases e9 : token = "SETTRACKS"
                        · rw [if_pos e9] at h
                          have hb := opSETTRACKS_stack h
                          omega
                        · rw [if_neg e9] at h
                          by_cases e10 : token = "SETAIM"
                          · rw [if_pos e10] at h
                            have hb := opSETAIM_stack h
                            omega
                          · rw [if_neg e10] at h
                            by_cases e11 : token = "SETSPEED"
                            · rw [if_pos e11] at h
                              have hb := opSETSPEED_stack h
                              omega
                            · rw [if_neg e11] at h
                              by_cases e12 : token = "FIRE"
                              · rw [if_pos e12] at h
                                have hb := opFIRE_stack h
                                omega
                              · rw [if_neg e12] at h
                                by_cases e13 : token = "DUP"
                                · rw [if_pos e13] at h
                                  have hb := opDUP_stack h
                                  omega
                                · rw [if_neg e13] at h
                                  by_cases e14 : token = "DROP"
                                  · rw [if_pos e14] at h
                                    have hb := opDROP_stack h
                                    omega
                                  · rw [if_neg e14] at h
                                    by_cases e15 : token = "SWAP"
                                    · rw [if_pos e15] at h
                                      have hb := opSWAP_stack h
                                      omega
                                    · rw [if_neg e15] at h
                                      by_cases e16 : token = "IFELSE"
                                      · rw [if_pos e16] at h
                                        have hb := opIFELSE_stack h
                                        omega
                                      · rw [if_neg e16] at h
                                        by_cases e17 : token = "+"
                                        · rw [if_pos e17] at h
                                          have hb := binArith_stack h
                                          omega
                                        · rw [if_neg e17] at h
                                          by_cases e18 : token = "-"
                                          · rw [if_pos e18] at h
                                            have hb := binArith_stack h
                                            omega
                                          · rw [if_neg e18] at h
                                            by_cases e19 : token = "*"
                                            · rw [if_pos e19] at h
                                              have hb := binArith_stack h
                                              omega
                                            · rw [if_neg e19] at h
                                              by_cases e20 : token = "/"
                                              · rw [if_pos e20] at h
                                                have hb := binArith_stack h
                                                omega
                                              · rw [if_neg e20] at h
                                                by_cases e21 : token = "%"
                                                · rw [if_pos e21] at h
                                                  have hb := binArith_stack h
                                                  omega
                                                · rw [if_neg e21] at h
                                                  by_cases e22 : token = "<"
                                                  · rw [if_pos e22] at h
                                                    have hb := binArith_stack h
                                                    omega
                                                  · rw [if_neg e22] at h
                                                    by_cases e23 : token = ">"
                                                    · rw [if_pos e23] at h
                                                      have hb := binArith_stack h
                                                      omega
                                                    · rw [if_neg e23] at h
                                                      by_cases e24 : token = "=="
                                                      · rw [if_pos e24] at h
                                                        have hb := binArith_stack h
                                                        omega
                                                      · rw [if_neg e24] at h
                                                        by_cases e25 : token = "JUMP" ∨ token = "RETURN"
                                                        · rw [if_pos e25] at h
                                                          have hb := opJUMP_stack h
                                                          omega
                                                        · rw [if_neg e25] at h
                                                          by_cases e26 : token = "JUMPIF"
                                                          · rw [if_pos e26] at h
                                                            have hb := opJUMPIF_stack h
                                                            omega
                                                          · rw [if_neg e26] at h
                                                            by_cases e27 : token = "CALL"
                                                            · rw [if_pos e27] at h
                                                              exact (opCALL_not_ok h).elim
                                                            · rw [if_neg e27] at h
                                                              by_cases e28 : token = "CALLIF"
                                                              · rw [if_pos e28] at h
                                                                have hb := opCALLIF_stack h
                                                                omega
                                                              · rw [if_neg e28] at h
                                                                by_cases e29 : (strStartsQuote token && strEndsQuote token) = true
                                                                · rw [if_pos e29] at h
                                                                  have hb := pushResult_stack h
                                                                  omega
                                                                · rw [if_neg e29] at h
                                                                  by_cases e30 : token = "STORE"
                                                                  · rw [if_pos e30] at h
                                                                    have hb := opSTORE_stack h
                                                                    omega
                                                                  · rw [if_neg e30] at h
                                                                    by_cases e31 : token = "LOAD"
                                                                    · rw [if_pos e31] at h
                                                                      have hb := opLOAD_stack h
                                                                      omega
                                                                    · rw [if_neg e31] at h
                                                                      have hb := opNUM_stack h
                                                                      omega

theorem c3_stack_bound_witness :
    execute_next [] [] c3obot = .error .stackOverflow :=
  (c3_stack_bound [] [] c3obot).1 (by decide)

/-- C3 counterexample: `DUP` at depth exactly 100 passes the pre-dispatch
check (`> 100`) and succeeds, leaving the operand stack at depth 101 —
an opcode *can* leave the stack above depth 100. -/
theorem c3_dup_to_101 :
    c3bot.stack.length = 100 ∧
    (execute_next [] [] c3bot).toOption.map (fun r => r.1.stack.length) =
      some 101 := by
  exact ⟨by decide, by decide⟩

/-! ## Claim C6: division by zero is a contained, bot-fatal fault -/

/-- `a // 0` always raises (`ZeroDivisionError` on numbers, `TypeError`
on strings). -/
theorem pyFloorDiv_zero (a : Value) : ∃ f, pyFloorDiv a (.int 0) = .error f := by
  rcases a with i | s | r <;> simp [pyFloorDiv]

/-- `a % 0` always raises. -/
theorem pyModV_zero (a : Value) : ∃ f, pyModV a (.int 0) = .error f := by
  rcases a with i | s | r <;> simp [pyModV]

/-- Executing `/` or `%` with integer `0` as the popped right operand
always raises some fault. -/
theorem exec_div_zero_fault (bots : List RoboBot) (bullets : List Bullet)
    (st : RoboBot) (rest : List Value)
    (htok : pyIndex st.tokens st.pc = .ok "/" ∨ pyIndex st.tokens st.pc = .ok "%")
    (hstack : st.stack = .int 0 :: rest) :
    ∃ f, execute_next bots bullets st = .error f := by
  by_cases hlen : 100 < st.stack.length
  · exact ⟨.stackOverflow, by unfold execute_next; rw [if_pos hlen]⟩
  · rcases htok with h1 | h1
    · unfold execute_next
      rw [if_neg hlen, h1]
      rcases rest with _ | ⟨a, r2⟩
      · refine ⟨.indexError, ?_⟩
        simp +decide [binArith, hstack, popV]
      · obtain ⟨f, hf⟩ := pyFloorDiv_zero a
        refine ⟨f, ?_⟩
        simp +decide [binArith, hstack, popV, hf]
    · unfold execute_next
      rw [if_neg hlen, h1]
      rcases rest with _ | ⟨a, r2⟩
      · refine ⟨.indexError, ?_⟩
        simp +decide [binArith, hstack, popV]
      · obtain ⟨f, hf⟩ := pyModV_zero a
        refine ⟨f, ?_⟩
        simp +decide [binArith, hstack, popV, hf]

/-- C6: a bot about to execute `/` (or `%`) with a zero right operand is
terminated on the spot — the opcode loop returns immediately with
health 0 and the bullet list untouched (first part); and in the
concrete S6 arena, bot A ends the bot phase with health 0 while bot B
ends it with health 100, and after the full tick only B remains, at
full health, with the arena intact (second part). -/
theorem c6_fault_containment :
    (∀ (fuel : ℕ) (bots : List RoboBot) (bullets : List Bullet) (st : RoboBot)
       (rest : List Value),
       st.ops_executed < st.ops_per_tick → 0 ≤ st.energy →
       (pyIndex st.tokens st.pc = .ok "/" ∨ pyIndex st.tokens st.pc = .ok "%") →
       st.stack = .int 0 :: rest →
       runLoop bots (fuel + 1) bullets st = ({ st with health := 0 }, bullets)) ∧
    ((botsPhase c6arena.size c6arena.bots c6arena.bullets).1.map
        (fun b => b.health) = [0, 100] ∧
     (Arena.tick c6arena).bots.map (fun b => b.name) = ["B"] ∧
     (Arena.tick c6arena).bots.map (fun b => b.health) = [100] ∧
     (Arena.tick c6arena).bullets.length = 0) := by
  constructor
  · intro fuel bots bullets st rest h1 h2 h3 h4
    obtain ⟨f, hf⟩ := exec_div_zero_fault bots bullets st rest h3 h4
    unfold runLoop
    rw [if_pos h1, if_neg (by omega : ¬ st.energy < 0), hf]
  · exact ⟨by decide, by decide, by decide, by decide⟩

theorem c6_fault_containment_witness :
    runLoop [] 1 [] c6st = ({ c6st with health := 0 }, []) :=
  c6_fault_containment.1 0 [] [] c6st [.int 0] (by decide) (by decide)
    (.inl rfl) rfl


/-! ## Claim C2: bullets fired during a tick -/

theorem degToRad_90 : degToRad 90 = Real.pi / 2 := by
  unfold degToRad
  push_cast
  ring

theorem cos_deg90 : Real.cos (degToRad 90) = 0 := by
  rw [degToRad_90, Real.cos_pi_div_two]

theorem sin_deg90 : Real.sin (degToRad 90) = 1 := by
  rw [degToRad_90, Real.sin_pi_div_two]

theorem degToRad_270 : degToRad 270 = Real.pi + Real.pi / 2 := by
  unfold degToRad
  push_cast
  ring

theorem cos_deg270 : Real.cos (degToRad 270) = 0 := by
  rw [degToRad_270]
  simp [Real.cos_add]

theorem sin_deg270 : Real.sin (degToRad 270) = -1 := by
  rw [degToRad_270]
  simp [Real.sin_add]

/-- C2 counterexample: a bullet appended to the arena's bullet list
during the tick's bot execution (the arena starts with no bullets) has
`distance_traveled = 15 ≠ 0` when the tick completes: freshly fired
bullets are moved by the same tick's `update_bullets`. -/
theorem c2_counterexample :
    c2arena.bullets = [] ∧
    (Arena.tick c2arena).bullets.map (fun b => b.distance_traveled) = [15] ∧
    (15 : ℤ) ≠ 0 :=
  ⟨rfl, by decide, by decide⟩

/-- C2 (amended): a bullet appended during the tick's bot execution is
moved exactly once before that tick completes: at tick end the
power-5 bullet fired from `(100,100)` with aim 0 sits at `(100, 85)`
with `distance_traveled = 15`. -/
theorem c2_fired_bullet_moves :
    c2arena.bullets = [] ∧
    (Arena.tick c2arena).bullets =
      [{ position := ((100 : ℝ), (85 : ℝ)), direction := 0, power := 5, speed := 15,
         owner := 0, max_range := 1000, distance_traveled := 15 }] := by
  refine ⟨rfl, ?_⟩
  have h1 : (Arena.tick c2arena).bullets =
      [Bullet.move { position := ((100 : ℝ), (100 : ℝ)), direction := 0, power := 5,
                     speed := 15, owner := 0, max_range := 1000,
                     distance_traveled := 0 }] := by
    rfl
  rw [h1]
  unfold Bullet.move
  norm_num [show Int.fmod (-90) 360 = 270 from by decide, cos_deg270, sin_deg270]

/-! ## Claim C7: scan and hit resolution ignore health -/

theorem scanAux_health (st : RoboBot) (g : RoboBot → ℚ) :
    ∀ (bots : List RoboBot) (acc : Option ℝ),
      scanAux st (bots.map (fun b => { b with health := g b })) acc =
        scanAux st bots acc := by
  intro bots
  induction bots with
  | nil => intro acc; rfl
  | cons b rest ih =>
    intro acc
    rcases acc with _ | m <;>
      (simp only [List.map_cons, scanAux]
       split_ifs <;> first | exact ih _ | rfl)

theorem hitFirst_geom (bu : Bullet) :
    ∀ {l1 l2 : List RoboBot}, sameGeom l1 l2 →
      ((hitFirst bu l1).isSome = (hitFirst bu l2).isSome ∧
       ∀ l1' l2', hitFirst bu l1 = some l1' → hitFirst bu l2 = some l2' →
         sameGeom l1' l2') := by
  intro l1 l2 h
  induction h with
  | nil => exact ⟨rfl, by intro l1' l2' h1 h2; cases h1⟩
  | cons hb hrest ih =>
    rename_i b1 b2 r1 r2
    obtain ⟨hbid, hpos, hrad⟩ := hb
    constructor
    · simp only [hitFirst, hbid, hpos, hrad]
      split_ifs <;> simp [ih.1]
    · intro l1' l2' h1 h2
      rw [hitFirst] at h1 h2
      rw [hbid, hpos, hrad] at h1
      by_cases hown : b2.bid = bu.owner
      · rw [if_pos hown] at h1 h2
        rcases hr1 : hitFirst bu r1 with _ | t1 <;> rw [hr1] at h1
        · cases h1
        · rcases hr2 : hitFirst bu r2 with _ | t2 <;> rw [hr2] at h2
          · have hi := ih.1
            rw [hr1, hr2] at hi
            cases hi
          · injection h1 with h1
            injection h2 with h2
            rw [← h1, ← h2]
            exact List.Forall₂.cons ⟨hbid, hpos, hrad⟩ (ih.2 t1 t2 hr1 hr2)
      · rw [if_neg hown] at h1 h2
        by_cases hhit :
            Real.sqrt ((b2.position.1 - bu.position.1) * (b2.position.1 - bu.position.1) +
              (b2.position.2 - bu.position.2) * (b2.position.2 - bu.position.2)) < b2.radius
        · rw [if_pos hhit] at h1 h2
          injection h1 with h1
          injection h2 with h2
          rw [← h1, ← h2]
          exact List.Forall₂.cons ⟨rfl, rfl, rfl⟩ hrest
        · rw [if_neg hhit] at h1 h2
          rcases hr1 : hitFirst bu r1 with _ | t1 <;> rw [hr1] at h1
          · cases h1
          · rcases hr2 : hitFirst bu r2 with _ | t2 <;> rw [hr2] at h2
            · have hi := ih.1
              rw [hr1, hr2] at hi
              cases hi
            · injection h1 with h1
              injection h2 with h2
              rw [← h1, ← h2]
              exact List.Forall₂.cons ⟨hbid, hpos, hrad⟩ (ih.2 t1 t2 hr1 hr2)


theorem foldl_resolve_geom :
    ∀ (ms : List Bullet) {l1 l2 : List RoboBot} (kept : List Bullet),
      sameGeom l1 l2 →
      ((ms.foldl resolveBullet (l1, kept)).2 = (ms.foldl resolveBullet (l2, kept)).2 ∧
       sameGeom (ms.foldl resolveBullet (l1, kept)).1
         (ms.foldl resolveBullet (l2, kept)).1) := by
  intro ms
  induction ms with
  | nil =>
    intro l1 l2 kept h
    exact ⟨rfl, h⟩
  | cons m rest ih =>
    intro l1 l2 kept h
    simp only [List.foldl_cons]
    by_cases hexp : m.is_expired = true
    · simp only [resolveBullet, if_pos hexp]
      exact ih kept h
    · have hg := hitFirst_geom m h
      rcases h1 : hitFirst m l1 with _ | t1 <;> rcases h2 : hitFirst m l2 with _ | t2
      · simp only [resolveBullet, if_neg hexp, h1, h2]
        exact ih _ h
      · rw [h1, h2] at hg
        cases hg.1
      · rw [h1, h2] at hg
        cases hg.1
      · simp only [resolveBullet, if_neg hexp, h1, h2]
        exact ih kept (hg.2 t1 t2 h1 h2)

theorem sameGeom_map (g : RoboBot → ℚ) :
    ∀ bots : List RoboBot,
      sameGeom (bots.map (fun b => { b with health := g b })) bots := by
  intro bots
  induction bots with
  | nil => exact List.Forall₂.nil
  | cons b rest ih => exact List.Forall₂.cons ⟨rfl, rfl, rfl⟩ ih


/-- C7 (amended): neither the `SCAN` raycast nor bullet hit resolution
filters by health — both consider every bot in the arena's list other
than self/owner: the scan result and the surviving-bullet list are
invariant under arbitrary changes to every bot's health, so a bot that
died earlier in the same tick is still scanned and still absorbs
bullets until it is pruned at tick end. -/
theorem c7_health_ignored :
    (∀ (st : RoboBot) (g : RoboBot → ℚ) (bots : List RoboBot) (acc : Option ℝ),
       scanAux st (bots.map (fun b => { b with health := g b })) acc =
         scanAux st bots acc) ∧
    (∀ (g : RoboBot → ℚ) (bots : List RoboBot) (bullets : List Bullet),
       (update_bullets (bots.map (fun b => { b with health := g b })) bullets).2 =
         (update_bullets bots bullets).2) := by
  constructor
  · exact scanAux_health
  · intro g bots bullets
    unfold update_bullets
    exact (foldl_resolve_geom (bullets.map Bullet.move) [] (sameGeom_map g bots)).1

theorem sqrt_100 : Real.sqrt 100 = 10 := by
  rw [show (100 : ℝ) = 10 ^ 2 by norm_num, Real.sqrt_sq (by norm_num : (0:ℝ) ≤ 10)]

theorem sqrt_25 : Real.sqrt 25 = 5 := by
  rw [show (25 : ℝ) = 5 ^ 2 by norm_num, Real.sqrt_sq (by norm_num : (0:ℝ) ≤ 5)]

theorem c7_scan_dead :
    scan_for_enemies c7scanner [c7scanner, c7dead] = .real 190 := by
  unfold scan_for_enemies
  norm_num [scanAux, c7scanner, c7dead, RoboBot.make,
    show Int.fmod 90 360 = 90 from by decide, cos_deg90, sin_deg90,
    Real.sqrt_zero, sqrt_100]

theorem c7_bullet_hits_dead :
    (update_bullets [c7scanner, c7dead] [c7pre]).1.map (fun b => b.health) =
      [100, 0 - 5 * (1 - 195 / 1000)] ∧
    (update_bullets [c7scanner, c7dead] [c7pre]).2 = [] := by
  norm_num [update_bullets, resolveBullet, hitFirst, Bullet.move, Bullet.is_expired,
    Bullet.damage, c7pre, c7scanner, c7dead, RoboBot.make,
    show Int.fmod 90 360 = 90 from by decide, cos_deg90, sin_deg90,
    Real.sqrt_zero, sqrt_25]

/-- C7 counterexample: a bot whose health is 0 (dead, not yet pruned)
is still returned as a `SCAN` target (the raycast reports hit distance
190, not the no-target value 0), and still absorbs a bullet and takes
its damage in hit resolution. -/
theorem c7_counterexample :
    c7dead.health ≤ 0 ∧
    scan_for_enemies c7scanner [c7scanner, c7dead] = .real 190 ∧
    Value.real 190 ≠ Value.int 0 ∧
    (update_bullets [c7scanner, c7dead] [c7pre]).1.map (fun b => b.health) =
      [100, 0 - 5 * (1 - 195 / 1000)] ∧
    (update_bullets [c7scanner, c7dead] [c7pre]).2 = [] :=
  ⟨by decide, c7_scan_dead, by simp, c7_bullet_hits_dead.1, c7_bullet_hits_dead.2⟩

/-! ## Claim C4: the S4 fire-geometry scenario -/

theorem c4_flight_step (k : ℕ) (hk : k ≤ 11) :
    c4step ([c4bot0, c4bot1], [c4bulletAt k]) = ([c4bot0, c4bot1], [c4bulletAt (k + 1)]) := by
  have hkr : (k : ℝ) ≤ 11 := by exact_mod_cast hk
  unfold c4step update_bullets
  norm_num [c4bulletAt, c4bullet, Bullet.move, resolveBullet, Bullet.is_expired, hitFirst,
    c4bot0, c4bot1, RoboBot.make, show Int.fmod 90 360 = 90 from by decide,
    cos_deg90, sin_deg90]
  have h2 : ¬ (Real.sqrt ((300 - (100 + 15 * (k:ℝ) + 15)) * (300 - (100 + 15 * (k:ℝ) + 15))) < 10) := by
    rw [Real.sqrt_mul_self (by linarith)]
    intro hcon
    linarith
  rw [if_neg (by omega : ¬ (1000 : ℤ) ≤ 15 * (k:ℤ) + 15), if_neg h2]
  norm_num [c4bulletAt, c4bullet]
  push_cast
  ring_nf
  exact ⟨trivial, trivial⟩

theorem c4_hit_step :
    c4step ([c4bot0, c4bot1], [c4bulletAt 12]) =
      ([c4bot0, { c4bot1 with health := 100 - 5 * (1 - 195 / 1000) }], []) := by
  unfold c4step update_bullets
  norm_num [c4bulletAt, c4bullet, Bullet.move, resolveBullet, Bullet.is_expired, hitFirst,
    Bullet.damage, c4bot0, c4bot1, RoboBot.make,
    show Int.fmod 90 360 = 90 from by decide, cos_deg90, sin_deg90, sqrt_25]

theorem c4_flight (k : ℕ) (hk : k ≤ 12) :
    c4state k = ([c4bot0, c4bot1], [c4bulletAt k]) := by
  induction k with
  | zero =>
    show ([c4bot0, c4bot1], [c4bullet]) = _
    norm_num [c4bulletAt, c4bullet]
  | succ k ih =>
    have hk' : k ≤ 11 := by omega
    have hit : c4state (k + 1) = c4step (c4state k) := Function.iterate_succ_apply' c4step k _
    rw [hit, ih (by omega), c4_flight_step k hk']

theorem c4_final :
    c4state 13 = ([c4bot0, { c4bot1 with health := 100 - 5 * (1 - 195 / 1000) }], []) := by
  have hit : c4state 13 = c4step (c4state 12) := Function.iterate_succ_apply' c4step 12 _
  rw [hit, c4_flight 12 (by omega), c4_hit_step]

/-- C4 counterexample: in the S4 geometry (radius-10 target 200 units
away, bullet speed 15) the bullet is consumed on move step 13, not 14:
after 13 steps the bullet list is empty and the target's health has
dropped by `5 * (1 - 195/1000) = 4.025`, not the claimed `3.95`. -/
theorem c4_counterexample :
    (c4state 13).2 = [] ∧
    (c4state 13).1.map (fun b => b.health) = [100, 100 - 5 * (1 - 195 / 1000)] ∧
    (100 - 5 * (1 - 195 / 1000) : ℚ) ≠ 100 - 3.95 ∧
    (5 * (1 - 195 / 1000) : ℚ) ≠ 3.95 := by
  refine ⟨?_, ?_, by norm_num, by norm_num⟩
  · rw [c4_final]
  · rw [c4_final]
    norm_num [c4bot0, c4bot1, RoboBot.make]

/-- C4 (amended): the bullet reaches the second bot after exactly 13
bullet-move steps — the first step whose post-move distance (5) is
below the bot radius (10) — for the 12 earlier steps it flies on
untouched, and the damage applied on the hit is
`5 * (1 - 195/1000) = 4.025`. -/
theorem c4_amended :
    (∀ k, k ≤ 12 → (c4state k).2 = [c4bulletAt k] ∧
       (c4state k).1.map (fun b => b.health) = [100, 100]) ∧
    c4state 13 = ([c4bot0, { c4bot1 with health := 100 - 5 * (1 - 195 / 1000) }], []) := by
  constructor
  · intro k hk
    rw [c4_flight k hk]
    exact ⟨rfl, by norm_num [c4bot0, c4bot1, RoboBot.make]⟩
  · exact c4_final

theorem c4_amended_witness :
    (c4state 3).2 = [c4bulletAt 3] ∧
    (c4state 3).1.map (fun b => b.health) = [100, 100] :=
  c4_amended.1 3 (by omega)

end Strife
